import Mathlib

/-!
Shallow embedding of `tools/run_tests/xds_k8s_test_driver/framework/test_app/client_app.py`
(class `XdsTestClient`): the channelz-snapshot scanning functions
(`find_server_channel_with_state`, `find_subchannel_with_state`,
`find_active_xds_channel`, `check_channel_successful_calls`,
`get_active_server_channel_socket`), the waiter parameter defaults of
`wait_for_server_channel_state` / `wait_for_xds_channel_active`, and the
retry-exhaustion note handlers of `wait_for_server_channel_ready` /
`wait_for_active_xds_channel`.

A channelz snapshot is modelled as a function `String → List Channel`
(the channels returned for a target, in snapshot order), and each
`Channel` carries its subchannels (each with its sockets) as the lists
the channelz accessors would return for it.  Python exceptions are
modelled by returning `Except AppError`.
-/

namespace ClientApp

/-- The channelz channel state enumeration (`grpc_channelz.ChannelState`). -/
inductive ChannelState where
  | IDLE
  | CONNECTING
  | READY
  | TRANSIENT_FAILURE
  | SHUTDOWN
deriving DecidableEq, Repr

/-- The string name of a state, as `ChannelzChannelState.Name` returns it. -/
def stateName : ChannelState → String
  | ChannelState.IDLE => "IDLE"
  | ChannelState.CONNECTING => "CONNECTING"
  | ChannelState.READY => "READY"
  | ChannelState.TRANSIENT_FAILURE => "TRANSIENT_FAILURE"
  | ChannelState.SHUTDOWN => "SHUTDOWN"

/-- A channelz socket (`grpc_channelz.Socket`): only its ref name matters here. -/
structure Socket where
  name : String
deriving DecidableEq, Repr

/-- A channelz subchannel (`grpc_channelz.Subchannel`): its ref name, its
`data.state.state`, and the sockets `channelz.list_subchannels_sockets`
returns for it, in listed order. -/
structure Subchannel where
  name : String
  state : ChannelState
  sockets : List Socket
deriving DecidableEq, Repr

/-- A channelz channel (`grpc_channelz.Channel`): its `ref.channel_id`, its
`data.state.state`, the call counters `data.calls_started` and
`data.calls_failed`, and the subchannels `channelz.list_channel_subchannels`
returns for it, in listed order. -/
structure Channel where
  channel_id : Nat
  state : ChannelState
  calls_started : Nat
  calls_failed : Nat
  subchannels : List Subchannel
deriving DecidableEq, Repr

def DEFAULT_TD_XDS_URI : String := "trafficdirector.googleapis.com:443"

/-- The exceptions the embedded functions can produce.  `notFound`,
`channelNotFound` and `channelNotActive` model `GrpcApp.NotFound` and its two
subclasses `XdsTestClient.ChannelNotFound` (which additionally carries
`src`, `dst` and `expected_state`) and `XdsTestClient.ChannelNotActive`
(which additionally carries `src` and `dst`).  `indexError` and
`valueError` model the built-in Python `IndexError` and `ValueError`, and
`transportError` models an RPC/transport failure propagated from the
channelz accessor. -/
inductive AppError where
  | notFound (message : String)
  | channelNotFound (message src dst : String) (expected_state : ChannelState)
  | channelNotActive (message src dst : String)
  | indexError (message : String)
  | valueError (message : String)
  | transportError (message : String)
deriving DecidableEq, Repr

/-- Whether an error belongs to the `GrpcApp.NotFound` exception family
(the base class or one of its two subclasses). -/
def isNotFoundFamily : AppError → Bool
  | AppError.notFound _ => true
  | AppError.channelNotFound _ _ _ _ => true
  | AppError.channelNotActive _ _ _ => true
  | _ => false

/-- Whether an error is an `XdsTestClient.ChannelNotFound`
(`isinstance(e, self.ChannelNotFound)`). -/
def isChannelNotFoundErr : AppError → Bool
  | AppError.channelNotFound _ _ _ _ => true
  | _ => false

/-- Modelled from the spec: the Introspection Accessor operation
`subConnectionsOf(connection)` (`channelz.list_channel_subchannels`, whose
implementation lives in `framework/rpc/grpc_channelz.py`, not under `src/`):
it returns the subchannels of the channel in listed order. -/
def list_channel_subchannels (channel : Channel) : List Subchannel :=
  channel.subchannels

/-- Modelled from the spec: the Introspection Accessor operation
`endpointsOf(subConnection)` (`channelz.list_subchannels_sockets`, not under
`src/`): it returns the sockets of the subchannel in listed order. -/
def list_subchannels_sockets (subchannel : Subchannel) : List Socket :=
  subchannel.sockets

/-- The `subchannel_ref` field of a channelz channel: the refs (names) of
the channel subchannels, in the same listed order. -/
def Channel.subchannel_ref (channel : Channel) : List String :=
  channel.subchannels.map Subchannel.name

/-- Message of the `NotFound` raised by `find_subchannel_with_state`. -/
def subchannelNotFoundMsg (hostname : String) (state : ChannelState) (channel_id : Nat) : String :=
  "[" ++ hostname ++ "] Not found a " ++ stateName state
    ++ " subchannel for channel_id " ++ toString channel_id

/-- Message of the `ChannelNotFound` raised by `find_server_channel_with_state`. -/
def channelNotFoundMsg (hostname : String) (expected_state : ChannelState) (target : String) : String :=
  "[" ++ hostname ++ "] Client has no " ++ stateName expected_state
    ++ " channel with server " ++ target

/-- Message of the `ChannelNotActive` raised by `find_active_xds_channel`. -/
def channelNotActiveMsg (hostname : String) (xds_server_uri : String) : String :=
  "[" ++ hostname ++ "] Client has no active channel with xds server " ++ xds_server_uri

/-- Message of the `NotFound` raised by `check_channel_successful_calls`. -/
def noSuccessfulCallsMsg (hostname : String) : String :=
  "[" ++ hostname ++ "] Not found successful calls over the channel."

/-- The `for subchannel in subchannels` loop of
`XdsTestClient.find_subchannel_with_state`: return the first subchannel whose
`data.state.state` is the requested state, else raise `NotFound`. -/
def findSubchannelLoop (hostname : String) (channel_id : Nat) (state : ChannelState) :
    List Subchannel → Except AppError Subchannel
  | [] => Except.error (AppError.notFound (subchannelNotFoundMsg hostname state channel_id))
  | subchannel :: rest =>
    if subchannel.state = state then Except.ok subchannel
    else findSubchannelLoop hostname channel_id state rest

/-- `XdsTestClient.find_subchannel_with_state(channel, state)`. -/
def find_subchannel_with_state (hostname : String) (channel : Channel) (state : ChannelState) :
    Except AppError Subchannel :=
  findSubchannelLoop hostname channel.channel_id state (list_channel_subchannels channel)

/-- The `for channel in self.get_server_channels(target)` loop of
`XdsTestClient.find_server_channel_with_state`: skip channels whose state is
not the expected one; when `check_subchannel` is set, also skip channels for
which `find_subchannel_with_state` raises `NotFound`; return the first
remaining channel, else raise `ChannelNotFound`. -/
def findServerChannelLoop (hostname target : String) (expected_state : ChannelState)
    (check_subchannel : Bool) : List Channel → Except AppError Channel
  | [] => Except.error (AppError.channelNotFound
      (channelNotFoundMsg hostname expected_state target) hostname target expected_state)
  | channel :: rest =>
    if channel.state = expected_state then
      if check_subchannel then
        match find_subchannel_with_state hostname channel expected_state with
        | Except.ok _ => Except.ok channel
        | Except.error _ =>
          findServerChannelLoop hostname target expected_state check_subchannel rest
      else Except.ok channel
    else findServerChannelLoop hostname target expected_state check_subchannel rest

/-- `XdsTestClient.find_server_channel_with_state(expected_state, check_subchannel=True)`.
`channels_for_target` models `self.get_server_channels` (the channelz query
for the channels of a target); `target` is `self.server_target`. -/
def find_server_channel_with_state (channels_for_target : String → List Channel)
    (hostname target : String) (expected_state : ChannelState)
    (check_subchannel : Bool := true) : Except AppError Channel :=
  findServerChannelLoop hostname target expected_state check_subchannel
    (channels_for_target target)

/-- `XdsTestClient.check_channel_successful_calls(channel)`: the channel is
active if it is in READY state and `calls_started > calls_failed`. -/
def check_channel_successful_calls (hostname : String) (channel : Channel) :
    Except AppError Channel :=
  if channel.state = ChannelState.READY ∧ channel.calls_started > channel.calls_failed then
    Except.ok channel
  else
    Except.error (AppError.notFound (noSuccessfulCallsMsg hostname))

/-- The `for channel in self.get_server_channels(xds_server_uri)` loop of
`XdsTestClient.find_active_xds_channel`: return the first channel for which
`check_channel_successful_calls` succeeds, keep searching on its `NotFound`,
else raise `ChannelNotActive`. -/
def findActiveXdsLoop (hostname xds_server_uri : String) :
    List Channel → Except AppError Channel
  | [] => Except.error (AppError.channelNotActive
      (channelNotActiveMsg hostname xds_server_uri) hostname xds_server_uri)
  | channel :: rest =>
    match check_channel_successful_calls hostname channel with
    | Except.ok c => Except.ok c
    | Except.error _ => findActiveXdsLoop hostname xds_server_uri rest

/-- `XdsTestClient.find_active_xds_channel(xds_server_uri)`. -/
def find_active_xds_channel (channels_for_target : String → List Channel)
    (hostname xds_server_uri : String) : Except AppError Channel :=
  findActiveXdsLoop hostname xds_server_uri (channels_for_target xds_server_uri)

/-- `XdsTestClient.get_active_server_channel_socket()`: locate a READY channel
to the server (with the default `check_subchannel=True`), log
`channel.subchannel_ref[0].name` (an `IndexError` when the ref list is empty),
unpack `subchannel, *subchannels` from the subchannel list (a `ValueError`
when it is empty, only a warning when more than one), unpack
`socket, *sockets` from the subchannel socket list likewise, and return the
first socket. -/
def get_active_server_channel_socket (channels_for_target : String → List Channel)
    (hostname target : String) : Except AppError Socket :=
  match find_server_channel_with_state channels_for_target hostname target
      ChannelState.READY true with
  | Except.error e => Except.error e
  | Except.ok channel =>
    match (Channel.subchannel_ref channel)[0]? with
    | none => Except.error (AppError.indexError "list index out of range")
    | some _ =>
      match list_channel_subchannels channel with
      | [] => Except.error (AppError.valueError "not enough values to unpack")
      | subchannel :: _extra_subchannels =>
        match list_subchannels_sockets subchannel with
        | [] => Except.error (AppError.valueError "not enough values to unpack")
        | socket :: _extra_sockets => Except.ok socket

/-- The retryer configuration that `retryers.exponential_retryer_with_timeout`
is constructed with, in whole seconds: minimum wait, maximum wait, and overall
timeout. -/
structure RetryerConfig where
  wait_min_sec : Nat
  wait_max_sec : Nat
  timeout_sec : Nat
deriving DecidableEq, Repr

/-- The parameters a waiter operation resolves: its retryer configuration and
the per-RPC deadline (seconds) passed down to each introspection call. -/
structure WaiterSettings where
  retryer : RetryerConfig
  rpc_deadline_sec : Nat
deriving DecidableEq, Repr

/-- The parameter resolution of `XdsTestClient.wait_for_server_channel_state`:
`rpc_deadline` defaults to 30 seconds, the retryer gets `wait_min` 10 s,
`wait_max` 25 s, and `timeout` 5 minutes when the caller supplies none. -/
def wait_for_server_channel_state_settings (timeout_sec rpc_deadline_sec : Option Nat) :
    WaiterSettings :=
  let rpc_deadline := match rpc_deadline_sec with
    | none => 30
    | some d => d
  { retryer :=
      { wait_min_sec := 10
        wait_max_sec := 25
        timeout_sec := match timeout_sec with
          | none => 5 * 60
          | some t => t }
    rpc_deadline_sec := rpc_deadline }

/-- The parameter resolution of `XdsTestClient.wait_for_xds_channel_active`:
identical defaults (30 s rpc deadline; 10 s / 25 s / 5 min retryer). -/
def wait_for_xds_channel_active_settings (timeout_sec rpc_deadline_sec : Option Nat) :
    WaiterSettings :=
  let rpc_deadline := match rpc_deadline_sec with
    | none => 30
    | some d => d
  { retryer :=
      { wait_min_sec := 10
        wait_max_sec := 25
        timeout_sec := match timeout_sec with
          | none => 5 * 60
          | some t => t }
    rpc_deadline_sec := rpc_deadline }

/-- The target resolution at the top of `XdsTestClient.wait_for_xds_channel_active`:
`if not xds_server_uri: xds_server_uri = DEFAULT_TD_XDS_URI` — both `None` and
the (falsy) empty string are replaced by the default control-plane address. -/
def wait_for_xds_channel_active_uri (xds_server_uri : Option String) : String :=
  match xds_server_uri with
  | none => DEFAULT_TD_XDS_URI
  | some s => if s = "" then DEFAULT_TD_XDS_URI else s

/-- Modelled from the spec: `retryers.RetryError` (the retry engine lives in
`framework/helpers/retryers.py`, not under `src/`).  On exhaustion the engine
fails with an error carrying the last underlying failure observed
(`retry_err.exception()`), to which notes may be attached (`add_note`). -/
structure RetryError where
  exc : AppError
  notes : List String
deriving DecidableEq, Repr

/-- `RetryError.add_note`: appends a human-readable note to the error. -/
def RetryError.add_note (retry_err : RetryError) (note : String) : RetryError :=
  { retry_err with notes := retry_err.notes ++ [note] }

/-- Modelled from the spec: `framework.errors.FrameworkError.note_blanket_error`
(not under `src/`) produces a human-readable diagnostic note from the given
message. -/
def note_blanket_error (message : String) : String :=
  message

/-- The `except retryers.RetryError` handler of
`XdsTestClient.wait_for_server_channel_ready`: when the underlying failure is
a `ChannelNotFound`, attach the could-not-connect note before re-raising;
otherwise re-raise unchanged. -/
def wait_for_server_channel_ready_on_retry_error (retry_err : RetryError) : RetryError :=
  if isChannelNotFoundErr retry_err.exc then
    retry_err.add_note
      (note_blanket_error "The client couldn\x27t connect to the server.")
  else retry_err

/-- The `except retryers.RetryError` handler of
`XdsTestClient.wait_for_active_xds_channel`: the source tests
`isinstance(retry_err.exception(), self.ChannelNotFound)` (not
`ChannelNotActive`) before attaching the control-plane note. -/
def wait_for_active_xds_channel_on_retry_error (retry_err : RetryError) : RetryError :=
  if isChannelNotFoundErr retry_err.exc then
    retry_err.add_note
      (note_blanket_error "The client couldn\x27t connect to the xDS control plane.")
  else retry_err

/-- Whether the channel has at least one subchannel in the given state. -/
def hasSubchannelInState (channel : Channel) (state : ChannelState) : Bool :=
  channel.subchannels.any (fun sc => sc.state == state)

/-- Whether a channel qualifies for `find_server_channel_with_state`: its state
equals the expected one and, when `check_subchannel` is set, it has at least
one subchannel in that same state. -/
def channelQualifies (expected_state : ChannelState) (check_subchannel : Bool)
    (channel : Channel) : Bool :=
  channel.state == expected_state
    && (!check_subchannel || hasSubchannelInState channel expected_state)

/-- Whether a channel qualifies for `find_active_xds_channel`: READY state and
strictly more calls started than failed. -/
def channelActive (channel : Channel) : Bool :=
  channel.state == ChannelState.READY
    && decide (channel.calls_started > channel.calls_failed)

/-! Bridging lemmas: each scanning loop agrees with the first-match
semantics of `List.find?` on its qualification predicate. -/

theorem findSubchannelLoop_eq_find? (hostname : String) (channel_id : Nat)
    (state : ChannelState) :
    ∀ l : List Subchannel, findSubchannelLoop hostname channel_id state l =
      match l.find? (fun sc => sc.state == state) with
      | some sc => Except.ok sc
      | none => Except.error
          (AppError.notFound (subchannelNotFoundMsg hostname state channel_id))
  | [] => rfl
  | sc :: rest => by
    simp only [findSubchannelLoop, List.find?]
    by_cases h : sc.state = state
    · simp [h]
    · have hb : (sc.state == state) = false := by simp [h]
      simp [h, hb, findSubchannelLoop_eq_find? hostname channel_id state rest]

theorem find_subchannel_with_state_eq_find? (hostname : String) (channel : Channel)
    (state : ChannelState) :
    find_subchannel_with_state hostname channel state =
      match channel.subchannels.find? (fun sc => sc.state == state) with
      | some sc => Except.ok sc
      | none => Except.error
          (AppError.notFound (subchannelNotFoundMsg hostname state channel.channel_id)) :=
  findSubchannelLoop_eq_find? hostname channel.channel_id state channel.subchannels

theorem hasSubchannelInState_eq_isSome_find? (channel : Channel) (state : ChannelState) :
    hasSubchannelInState channel state =
      (channel.subchannels.find? (fun sc => sc.state == state)).isSome := by
  cases hfs : channel.subchannels.find? (fun sc => sc.state == state) with
  | none =>
    have hall := List.find?_eq_none.mp hfs
    simpa [hasSubchannelInState, List.any_eq_false] using hall
  | some sc =>
    have hmem := List.mem_of_find?_eq_some hfs
    have hp := List.find?_some hfs
    simp only [hasSubchannelInState, Option.isSome_some]
    exact List.any_eq_true.mpr ⟨sc, hmem, hp⟩

theorem findServerChannelLoop_eq_find? (hostname target : String)
    (expected_state : ChannelState) (check_subchannel : Bool) :
    ∀ l : List Channel, findServerChannelLoop hostname target expected_state check_subchannel l =
      match l.find? (channelQualifies expected_state check_subchannel) with
      | some ch => Except.ok ch
      | none => Except.error (AppError.channelNotFound
          (channelNotFoundMsg hostname expected_state target) hostname target expected_state)
  | [] => rfl
  | channel :: rest => by
    have ih := findServerChannelLoop_eq_find? hostname target expected_state check_subchannel rest
    simp only [findServerChannelLoop, List.find?]
    by_cases hst : channel.state = expected_state
    · cases check_subchannel with
      | false => simp [channelQualifies, hst]
      | true =>
        rw [find_subchannel_with_state_eq_find?]
        cases hfs : channel.subchannels.find? (fun sc => sc.state == expected_state) with
        | none =>
          have hq : channelQualifies expected_state true channel = false := by
            simp [channelQualifies, hst, hasSubchannelInState_eq_isSome_find?, hfs]
          simp [hq, ih]
        | some sc =>
          have hq : channelQualifies expected_state true channel = true := by
            simp [channelQualifies, hst, hasSubchannelInState_eq_isSome_find?, hfs]
          simp [hst, hfs, hq]
    · have hq : channelQualifies expected_state check_subchannel channel = false := by
        simp [channelQualifies, hst]
      simp [hst, hq, ih]

theorem find_server_channel_with_state_eq_find? (channels_for_target : String → List Channel)
    (hostname target : String) (expected_state : ChannelState) (check_subchannel : Bool) :
    find_server_channel_with_state channels_for_target hostname target expected_state
        check_subchannel =
      match (channels_for_target target).find?
          (channelQualifies expected_state check_subchannel) with
      | some ch => Except.ok ch
      | none => Except.error (AppError.channelNotFound
          (channelNotFoundMsg hostname expected_state target) hostname target expected_state) :=
  findServerChannelLoop_eq_find? hostname target expected_state check_subchannel
    (channels_for_target target)

theorem check_channel_successful_calls_eq (hostname : String) (channel : Channel) :
    check_channel_successful_calls hostname channel =
      if channelActive channel then Except.ok channel
      else Except.error (AppError.notFound (noSuccessfulCallsMsg hostname)) := by
  by_cases h : channel.state = ChannelState.READY ∧ channel.calls_started > channel.calls_failed
  · have hq : channelActive channel = true := by
      simp [channelActive, h.1, h.2]
    simp [check_channel_successful_calls, h, hq]
  · have hq : channelActive channel = false := by
      rcases Decidable.not_and_iff_or_not.mp h with h1 | h2
      · simp [channelActive, h1]
      · simp [channelActive, h2]
    simp [check_channel_successful_calls, h, hq]

theorem findActiveXdsLoop_eq_find? (hostname xds_server_uri : String) :
    ∀ l : List Channel, findActiveXdsLoop hostname xds_server_uri l =
      match l.find? channelActive with
      | some ch => Except.ok ch
      | none => Except.error (AppError.channelNotActive
          (channelNotActiveMsg hostname xds_server_uri) hostname xds_server_uri)
  | [] => rfl
  | channel :: rest => by
    have ih := findActiveXdsLoop_eq_find? hostname xds_server_uri rest
    simp only [findActiveXdsLoop, List.find?, check_channel_successful_calls_eq]
    cases hq : channelActive channel with
    | true => simp [hq]
    | false => simp [hq, ih]

theorem find_active_xds_channel_eq_find? (channels_for_target : String → List Channel)
    (hostname xds_server_uri : String) :
    find_active_xds_channel channels_for_target hostname xds_server_uri =
      match (channels_for_target xds_server_uri).find? channelActive with
      | some ch => Except.ok ch
      | none => Except.error (AppError.channelNotActive
          (channelNotActiveMsg hostname xds_server_uri) hostname xds_server_uri) :=
  findActiveXdsLoop_eq_find? hostname xds_server_uri (channels_for_target xds_server_uri)

/-- C1: for every snapshot containing at least one channel to the server
target whose state equals the expected state and, when `check_subchannel` is
true, having at least one subchannel in that same state,
`find_server_channel_with_state` returns the first such channel in snapshot
order (the first match of `channelQualifies`); candidates in the right state
but lacking a qualifying subchannel do not qualify and the scan continues
past them. -/
theorem find_server_channel_returns_first_qualifying
    (channels_for_target : String → List Channel) (hostname target : String)
    (expected_state : ChannelState) (check_subchannel : Bool) (ch : Channel)
    (h : (channels_for_target target).find?
        (channelQualifies expected_state check_subchannel) = some ch) :
    find_server_channel_with_state channels_for_target hostname target expected_state
      check_subchannel = Except.ok ch := by
  rw [find_server_channel_with_state_eq_find?, h]

theorem find_server_channel_returns_first_qualifying_witness :
    find_server_channel_with_state
      (fun _ => [⟨1, ChannelState.READY, 0, 0, [⟨"subchannel-1", ChannelState.CONNECTING, []⟩]⟩,
        ⟨2, ChannelState.READY, 0, 0, [⟨"subchannel-2", ChannelState.READY, [⟨"socket-2"⟩]⟩]⟩])
      "client-host" "server:443" ChannelState.READY true =
    Except.ok ⟨2, ChannelState.READY, 0, 0,
      [⟨"subchannel-2", ChannelState.READY, [⟨"socket-2"⟩]⟩]⟩ :=
  find_server_channel_returns_first_qualifying _ "client-host" "server:443"
    ChannelState.READY true _ (by decide)

/-- C3: for every snapshot, `find_server_channel_with_state` fails if and only
if no channel in the snapshot for the server target qualifies (right state,
and a subchannel in that state when required), and the error is exactly a
`ChannelNotFound` carrying src = hostname, dst = the server target and
`expected_state` = the requested state.  The right-to-left direction shows the
error is never produced while a qualifying candidate exists anywhere in the
snapshot, i.e. only after the full scan fails. -/
theorem find_server_channel_not_found_iff
    (channels_for_target : String → List Channel) (hostname target : String)
    (expected_state : ChannelState) (check_subchannel : Bool) :
    (channels_for_target target).find?
        (channelQualifies expected_state check_subchannel) = none ↔
      find_server_channel_with_state channels_for_target hostname target expected_state
          check_subchannel =
        Except.error (AppError.channelNotFound
          (channelNotFoundMsg hostname expected_state target)
          hostname target expected_state) := by
  constructor
  · intro h
    rw [find_server_channel_with_state_eq_find?, h]
  · intro h
    rw [find_server_channel_with_state_eq_find?] at h
    cases hf : (channels_for_target target).find?
        (channelQualifies expected_state check_subchannel) with
    | none => rfl
    | some ch => rw [hf] at h; simp at h

/-- C6: for every channel and target state, `find_subchannel_with_state` scans
the channel subchannels in listed order and returns the first one whose state
equals the target state; when no subchannel matches it raises the generic
`NotFound` error. -/
theorem find_subchannel_returns_first_match (hostname : String) (channel : Channel)
    (state : ChannelState) :
    (∀ sc, channel.subchannels.find? (fun x => x.state == state) = some sc →
        find_subchannel_with_state hostname channel state = Except.ok sc)
    ∧ (channel.subchannels.find? (fun x => x.state == state) = none →
        find_subchannel_with_state hostname channel state =
          Except.error (AppError.notFound
            (subchannelNotFoundMsg hostname state channel.channel_id))) := by
  constructor
  · intro sc h
    rw [find_subchannel_with_state_eq_find?, h]
  · intro h
    rw [find_subchannel_with_state_eq_find?, h]

theorem find_subchannel_returns_first_match_witness :
    find_subchannel_with_state "client-host"
        ⟨7, ChannelState.READY, 0, 0,
          [⟨"sub-a", ChannelState.IDLE, []⟩, ⟨"sub-b", ChannelState.READY, []⟩,
            ⟨"sub-c", ChannelState.READY, []⟩]⟩ ChannelState.READY =
      Except.ok ⟨"sub-b", ChannelState.READY, []⟩
    ∧ find_subchannel_with_state "client-host" ⟨8, ChannelState.IDLE, 0, 0, []⟩
        ChannelState.READY =
      Except.error (AppError.notFound
        (subchannelNotFoundMsg "client-host" ChannelState.READY 8)) :=
  ⟨(find_subchannel_returns_first_match "client-host" _ ChannelState.READY).1 _ (by decide),
    (find_subchannel_returns_first_match "client-host" _ ChannelState.READY).2 (by decide)⟩

/-- C2: for every snapshot, `find_active_xds_channel` returns the first
channel in scan order with READY state and `calls_started > calls_failed`
(the first match of `channelActive`); when no channel qualifies it raises
`ChannelNotActive` carrying src = hostname and dst = the xDS server URI, and
a channel with `calls_started = calls_failed` is rejected by
`check_channel_successful_calls`. -/
theorem find_active_xds_channel_spec (channels_for_target : String → List Channel)
    (hostname xds_server_uri : String) :
    (∀ ch, (channels_for_target xds_server_uri).find? channelActive = some ch →
        find_active_xds_channel channels_for_target hostname xds_server_uri = Except.ok ch)
    ∧ ((channels_for_target xds_server_uri).find? channelActive = none →
        find_active_xds_channel channels_for_target hostname xds_server_uri =
          Except.error (AppError.channelNotActive
            (channelNotActiveMsg hostname xds_server_uri) hostname xds_server_uri))
    ∧ (∀ ch : Channel, ch.calls_started = ch.calls_failed →
        check_channel_successful_calls hostname ch =
          Except.error (AppError.notFound (noSuccessfulCallsMsg hostname))) := by
  refine ⟨?_, ?_, ?_⟩
  · intro ch h
    rw [find_active_xds_channel_eq_find?, h]
  · intro h
    rw [find_active_xds_channel_eq_find?, h]
  · intro ch heq
    have hf : channelActive ch = false := by
      simp [channelActive, heq]
    rw [check_channel_successful_calls_eq, hf]
    simp

theorem find_active_xds_channel_spec_witness :
    find_active_xds_channel
        (fun _ => [⟨1, ChannelState.READY, 3, 3, []⟩, ⟨2, ChannelState.READY, 5, 2, []⟩])
        "client-host" "xds.example.com:443" =
      Except.ok ⟨2, ChannelState.READY, 5, 2, []⟩
    ∧ find_active_xds_channel (fun _ => [⟨3, ChannelState.READY, 0, 0, []⟩])
        "client-host" "xds.example.com:443" =
      Except.error (AppError.channelNotActive
        (channelNotActiveMsg "client-host" "xds.example.com:443")
        "client-host" "xds.example.com:443")
    ∧ check_channel_successful_calls "client-host" ⟨1, ChannelState.READY, 3, 3, []⟩ =
      Except.error (AppError.notFound (noSuccessfulCallsMsg "client-host")) :=
  ⟨(find_active_xds_channel_spec _ "client-host" "xds.example.com:443").1 _ (by decide),
    (find_active_xds_channel_spec _ "client-host" "xds.example.com:443").2.1 (by decide),
    (find_active_xds_channel_spec (fun _ => []) "client-host" "x").2.2 _ rfl⟩

/-- C8: `get_active_server_channel_socket` locates the first channel to the
peer qualifying as READY with a READY subchannel, takes the first subchannel
in listed order and that subchannel first socket, and returns that socket;
extra subchannels or sockets (the `scs` / `ss` tails) do not change the
result. -/
theorem get_active_server_channel_socket_returns_first_socket
    (channels_for_target : String → List Channel) (hostname target : String)
    (ch : Channel) (sc : Subchannel) (scs : List Subchannel) (s : Socket) (ss : List Socket)
    (hch : (channels_for_target target).find?
        (channelQualifies ChannelState.READY true) = some ch)
    (hsub : ch.subchannels = sc :: scs) (hsock : sc.sockets = s :: ss) :
    get_active_server_channel_socket channels_for_target hostname target = Except.ok s := by
  unfold get_active_server_channel_socket
  rw [find_server_channel_with_state_eq_find?, hch]
  simp [Channel.subchannel_ref, list_channel_subchannels, list_subchannels_sockets,
    hsub, hsock]

theorem get_active_server_channel_socket_returns_first_socket_witness :
    get_active_server_channel_socket
        (fun _ => [⟨1, ChannelState.READY, 0, 0,
          [⟨"sub-1", ChannelState.READY, [⟨"socket-1"⟩, ⟨"socket-2"⟩]⟩,
            ⟨"sub-2", ChannelState.READY, [⟨"socket-3"⟩]⟩]⟩])
        "client-host" "server:443" =
      Except.ok ⟨"socket-1"⟩ :=
  get_active_server_channel_socket_returns_first_socket _ "client-host" "server:443"
    ⟨1, ChannelState.READY, 0, 0,
      [⟨"sub-1", ChannelState.READY, [⟨"socket-1"⟩, ⟨"socket-2"⟩]⟩,
        ⟨"sub-2", ChannelState.READY, [⟨"socket-3"⟩]⟩]⟩
    ⟨"sub-1", ChannelState.READY, [⟨"socket-1"⟩, ⟨"socket-2"⟩]⟩
    [⟨"sub-2", ChannelState.READY, [⟨"socket-3"⟩]⟩]
    ⟨"socket-1"⟩ [⟨"socket-2"⟩] (by decide) rfl rfl

/-- C9: `get_active_server_channel_socket` is partial at its public interface.
Because the located channel qualifies with `check_subchannel = true`, its
subchannel list (hence its `subchannel_ref` list) is never empty, so those
two failure branches cannot fire for the located channel; but when the first
subchannel socket list is empty, the unpacking fails with a `ValueError` that
is not in the `NotFound` exception family.  Totality therefore needs the
precondition that the first subchannel of the located channel has at least
one socket. -/
theorem get_active_server_channel_socket_totality
    (channels_for_target : String → List Channel) (hostname target : String)
    (ch : Channel)
    (hch : (channels_for_target target).find?
        (channelQualifies ChannelState.READY true) = some ch) :
    ch.subchannels ≠ []
    ∧ (∀ sc scs, ch.subchannels = sc :: scs → sc.sockets = [] →
        get_active_server_channel_socket channels_for_target hostname target =
            Except.error (AppError.valueError "not enough values to unpack")
          ∧ isNotFoundFamily (AppError.valueError "not enough values to unpack") = false) := by
  constructor
  · have hq := List.find?_some hch
    have hsub : hasSubchannelInState ch ChannelState.READY = true := by
      simp only [channelQualifies, Bool.and_eq_true] at hq
      simpa using hq.2
    rcases List.any_eq_true.mp hsub with ⟨sc, hmem, _⟩
    intro hnil
    rw [hnil] at hmem
    exact (List.not_mem_nil sc) hmem
  · intro sc scs hsub hsock
    refine ⟨?_, rfl⟩
    unfold get_active_server_channel_socket
    rw [find_server_channel_with_state_eq_find?, hch]
    simp [Channel.subchannel_ref, list_channel_subchannels, list_subchannels_sockets,
      hsub, hsock]

theorem get_active_server_channel_socket_totality_witness :
    get_active_server_channel_socket
        (fun _ => [⟨1, ChannelState.READY, 0, 0, [⟨"sub-1", ChannelState.READY, []⟩]⟩])
        "client-host" "server:443" =
      Except.error (AppError.valueError "not enough values to unpack")
    ∧ isNotFoundFamily (AppError.valueError "not enough values to unpack") = false :=
  (get_active_server_channel_socket_totality
      (fun _ => [⟨1, ChannelState.READY, 0, 0, [⟨"sub-1", ChannelState.READY, []⟩]⟩])
      "client-host" "server:443"
      ⟨1, ChannelState.READY, 0, 0, [⟨"sub-1", ChannelState.READY, []⟩]⟩ (by decide)).2
    ⟨"sub-1", ChannelState.READY, []⟩ [] rfl rfl

/-- C4: code bug.  The claim (and the spec) say `wait_for_active_xds_channel`
attaches the control-plane diagnostic note when the last underlying failure is
`ChannelNotActive`, but the handler tests for `ChannelNotFound`, which
`find_active_xds_channel` never raises: on a snapshot with no active channel
the probe fails with `ChannelNotActive`, that error is not a
`ChannelNotFound`, and the handler returns the retry error with its notes
unchanged (no note attached). -/
theorem wait_for_active_xds_channel_note_never_attached :
    find_active_xds_channel (fun _ => []) "client-host" DEFAULT_TD_XDS_URI =
      Except.error (AppError.channelNotActive
        (channelNotActiveMsg "client-host" DEFAULT_TD_XDS_URI)
        "client-host" DEFAULT_TD_XDS_URI)
    ∧ isChannelNotFoundErr (AppError.channelNotActive
        (channelNotActiveMsg "client-host" DEFAULT_TD_XDS_URI)
        "client-host" DEFAULT_TD_XDS_URI) = false
    ∧ wait_for_active_xds_channel_on_retry_error
        ⟨AppError.channelNotActive (channelNotActiveMsg "client-host" DEFAULT_TD_XDS_URI)
          "client-host" DEFAULT_TD_XDS_URI, []⟩ =
      ⟨AppError.channelNotActive (channelNotActiveMsg "client-host" DEFAULT_TD_XDS_URI)
        "client-host" DEFAULT_TD_XDS_URI, []⟩ :=
  ⟨rfl, rfl, rfl⟩

/-- C5: the retry-error handler of `wait_for_server_channel_ready` attaches
the could-not-connect note exactly when the underlying failure of the last
attempt is a `ChannelNotFound`; for any other error (e.g. a transport
failure) the retry error is re-raised unchanged. -/
theorem wait_for_server_channel_ready_note_policy (retry_err : RetryError) :
    (isChannelNotFoundErr retry_err.exc = true →
      wait_for_server_channel_ready_on_retry_error retry_err =
        retry_err.add_note
          (note_blanket_error "The client couldn\x27t connect to the server."))
    ∧ (isChannelNotFoundErr retry_err.exc = false →
      wait_for_server_channel_ready_on_retry_error retry_err = retry_err) := by
  constructor <;> intro h <;>
    simp [wait_for_server_channel_ready_on_retry_error, h]

theorem wait_for_server_channel_ready_note_policy_witness :
    wait_for_server_channel_ready_on_retry_error
        ⟨AppError.channelNotFound
          (channelNotFoundMsg "client-host" ChannelState.READY "server:443")
          "client-host" "server:443" ChannelState.READY, []⟩ =
      RetryError.add_note
        ⟨AppError.channelNotFound
          (channelNotFoundMsg "client-host" ChannelState.READY "server:443")
          "client-host" "server:443" ChannelState.READY, []⟩
        (note_blanket_error "The client couldn\x27t connect to the server.")
    ∧ wait_for_server_channel_ready_on_retry_error
        ⟨AppError.transportError "connection reset", ["earlier note"]⟩ =
      ⟨AppError.transportError "connection reset", ["earlier note"]⟩ :=
  ⟨(wait_for_server_channel_ready_note_policy _).1 rfl,
    (wait_for_server_channel_ready_note_policy _).2 rfl⟩

/-- C7: when the caller does not override them, both
`wait_for_server_channel_state` and `wait_for_xds_channel_active` use a
minimum backoff wait of 10 s, a maximum backoff wait of 25 s, an overall
timeout of 5 minutes (300 s) and a per-RPC deadline of 30 s; each value is
replaced by the caller-supplied one when given. -/
theorem waiter_default_settings :
    wait_for_server_channel_state_settings none none = ⟨⟨10, 25, 300⟩, 30⟩
    ∧ wait_for_xds_channel_active_settings none none = ⟨⟨10, 25, 300⟩, 30⟩
    ∧ (∀ t d : Nat,
        wait_for_server_channel_state_settings (some t) (some d) = ⟨⟨10, 25, t⟩, d⟩)
    ∧ (∀ t d : Nat,
        wait_for_xds_channel_active_settings (some t) (some d) = ⟨⟨10, 25, t⟩, d⟩) :=
  ⟨rfl, rfl, fun _ _ => rfl, fun _ _ => rfl⟩

/-- C10: `wait_for_xds_channel_active` substitutes the default control-plane
target `trafficdirector.googleapis.com:443` both when no xDS server URI is
supplied and when the (falsy) empty string is supplied; a non-empty URI is
kept as given. -/
theorem xds_uri_defaults_on_falsy :
    wait_for_xds_channel_active_uri none = DEFAULT_TD_XDS_URI
    ∧ wait_for_xds_channel_active_uri (some "") = DEFAULT_TD_XDS_URI
    ∧ ∀ s : String, s ≠ "" → wait_for_xds_channel_active_uri (some s) = s := by
  refine ⟨rfl, by simp [wait_for_xds_channel_active_uri], ?_⟩
  intro s hs
  simp [wait_for_xds_channel_active_uri, hs]

theorem xds_uri_defaults_on_falsy_witness :
    wait_for_xds_channel_active_uri (some "xds.example.com:443") = "xds.example.com:443" :=
  xds_uri_defaults_on_falsy.2.2 "xds.example.com:443" (by decide)

end ClientApp
